import Mathlib

/-
Verification of the release-tag parsing and selection engine of the
yugabyte/llvm-installer repository (src/llvm_installer/__init__.py).

The Python module is shallowly embedded below:
  * Python exceptions become the `PyErr` error type carried by `Except`.
  * The two compiled regular expressions (`TAG_RE` and
    `TAG_RE_WITHOUT_OS_AND_ARCH`) are embedded as an executable
    leftmost-greedy backtracking matcher specialised to those two concrete
    patterns.  `re.match` anchors at the start only; `TAG_RE` carries an
    explicit `$` while the legacy pattern does not, and the embedding
    reproduces that difference exactly.
  * The alternation of recognized short OS names comes from the external
    `sys_detection` package (it is not part of this repository); it is kept
    as a parameter `osNames` everywhere and instantiated with a list
    modelled from the spec for concrete computations.
-/

/-! ## Python-level primitives -/

/-- The Python exceptions that the embedded code can raise. -/
inductive PyErr where
  | tagParsingError (msg : String)
  | indexError
  | valueError (msg : String)
  | attributeError
  | assertionError
deriving DecidableEq

/-- Returns `true` exactly on `Except.ok` results. -/
def exceptIsOk {ε α : Type} (e : Except ε α) : Bool :=
  match e with
  | .ok _ => true
  | .error _ => false

/-- Decimal value of a list of ASCII digit characters. -/
def digitsToNat (cs : List Char) : Nat :=
  cs.foldl (fun acc c => 10 * acc + (c.toNat - '0'.toNat)) 0

/-- Modelled Python `int(s)` for base 10, restricted to the alphabets that can
reach it in this module (`[0-9.]` version components and `[a-z0-9-]` suffix
remainders): it succeeds exactly on an optional leading minus sign followed by
one or more ASCII digits, and raises `ValueError` otherwise.  (Python's
additional tolerance for whitespace, a plus sign and underscores is
unreachable over these alphabets.) -/
def pyInt (s : String) : Except PyErr Int :=
  match s.toList with
  | '-' :: rest =>
    if !rest.isEmpty && rest.all Char.isDigit then
      .ok (-(digitsToNat rest : Int))
    else
      .error (.valueError s)
  | cs =>
    if !cs.isEmpty && cs.all Char.isDigit then
      .ok ((digitsToNat cs : Int))
    else
      .error (.valueError s)

/-- Returns `true` when Python `int(s)` succeeds. -/
def pyIntOk (s : String) : Bool :=
  exceptIsOk (pyInt s)

/-- Python list indexing `l[i]`, raising `IndexError` when out of range. -/
def pyGetIdx (l : List String) (i : Nat) : Except PyErr String :=
  match l.get? i with
  | some v => .ok v
  | none => .error .indexError

/-- Python `int(l[i])` as evaluated left to right: the index lookup first, then the
integer conversion. -/
def pyIdxInt (l : List String) (i : Nat) : Except PyErr Int :=
  match pyGetIdx l i with
  | .error e => .error e
  | .ok s => pyInt s

/-- Python `s.split('.')` on the character list: every maximal (possibly
empty) run between dots becomes a field, so the result is always nonempty
(`''.split('.') == ['']`). -/
def splitOnDot : List Char → List (List Char)
  | [] => [[]]
  | c :: rest =>
    if c = '.' then [] :: splitOnDot rest
    else
      match splitOnDot rest with
      | [] => [[c]]
      | f :: fs => (c :: f) :: fs

/-- Python `s.split('.')` (equivalently `String.splitOn s "."`), implemented
over character lists so that it evaluates by kernel reduction. -/
def pySplitDot (s : String) : List String :=
  (splitOnDot s.toList).map String.mk

/-- Python `s.startswith(pre)` (equivalently `String.startsWith`). -/
def pyStartsWith (s pre : String) : Bool :=
  pre.toList.isPrefixOf s.toList

/-- Python `s[n:]` for a nonnegative `n` (equivalently `String.drop`). -/
def pyDrop (s : String) (n : Nat) : String :=
  String.mk (s.toList.drop n)

/-! ## Data model -/

/-- The six regex capture groups plus the raw tag, before `finish_init`.
`short_os_name_and_version` and `architecture` are `none` when the legacy
pattern matched (the Python object then simply lacks those attributes). -/
structure RawFields where
  tag : String
  version : String
  version_suffix : Option String
  timestamp : String
  sha1_prefix : String
  short_os_name_and_version : Option String
  architecture : Option String
deriving DecidableEq

/-- The fully initialised `ParsedTag` (after `finish_init`). -/
structure ParsedTag where
  tag : String
  version : String
  version_suffix : Option String
  timestamp : String
  sha1_prefix : String
  short_os_name_and_version : String
  architecture : String
  major_version : Int
  minor_version : Int
  patch_version : Int
  yb_suffix_version : Option Int
  is_old_tag_without_os_and_arch : Bool
deriving DecidableEq

def DEFAULT_SHORT_OS_NAME_AND_VERSION_FOR_OLD_BUILDS : String := "centos7"

def DEFAULT_ARCHITECTURE_FOR_OLD_BUILDS : String := "x86_64"

/-! ## The regular expressions

`TAG_RE_STR` is
`^v(?P<version>[0-9.]+)(-(?P<version_suffix>[a-z0-9-]+))?-(?P<timestamp>\d+)-(?P<sha1_prefix>[0-9a-f]+)-(?P<short_os_name_and_version>(?:OS|...)[0-9.]*)-(?P<architecture>x86_64|aarch64|arm64)$`
and `TAG_RE_WITHOUT_OS_AND_ARCH_RE_STR` is its prefix up to and including the
`sha1_prefix` group (with `^` but, notably, without `$`).

The matcher below reproduces Python's leftmost-greedy backtracking semantics
for these two patterns.  The character classes `[0-9.]`, `\d` and `[0-9a-f]`
do not contain `-`, and each of those groups is followed in the pattern by a
literal `-` (or by the end of the pattern), so for them maximal munch is
exact.  The one group that genuinely backtracks is `(?P<version_suffix>
[a-z0-9-]+)`, whose class contains `-`: Python tries the longest munch first
and retreats one character at a time, and the optional group around it is
greedy (tried before the suffix-less alternative).  The OS-name alternation
tries its alternatives left to right. -/

/-- Character class `[0-9.]` (the `version` group and the OS version tail). -/
def isVerChar (c : Char) : Bool := c.isDigit || c = '.'

/-- Character class `[a-z0-9-]` (the `version_suffix` group). -/
def isSufChar (c : Char) : Bool := ('a' ≤ c && c ≤ 'z') || c.isDigit || c = '-'

/-- Character class `[0-9a-f]` (the `sha1_prefix` group). -/
def isHexChar (c : Char) : Bool := c.isDigit || ('a' ≤ c && c ≤ 'f')

/-- Greedy munch of a character class: the longest prefix satisfying `p`,
paired with the remainder. -/
def spanChars (p : Char → Bool) (cs : List Char) : List Char × List Char :=
  (cs.takeWhile p, cs.dropWhile p)

/-- Match `-(?P<timestamp>\d+)-(?P<sha1_prefix>[0-9a-f]+)` and hand the
remainder to the continuation `k` (the part of the pattern after the
`sha1_prefix` group). -/
def matchTsSha {α : Type} (k : List Char → Option α) (cs : List Char) :
    Option (String × String × α) :=
  match cs with
  | '-' :: cs1 =>
    let (ts, cs2) := spanChars Char.isDigit cs1
    if ts.isEmpty then none else
    match cs2 with
    | '-' :: cs3 =>
      let (sha, cs4) := spanChars isHexChar cs3
      if sha.isEmpty then none else
      (k cs4).map (fun a => (String.mk ts, String.mk sha, a))
    | _ => none
  | _ => none

/-- Greedy backtracking for `[a-z0-9-]+`: the first argument is the reversed
current candidate munch, the second the corresponding remainder.  The longest
candidate is tried first; on failure the last character of the candidate is
returned to the remainder.  An empty candidate fails (the `+` requires at
least one character). -/
def sufBacktrack {α : Type} (k : List Char → Option α) :
    List Char → List Char → Option (String × α)
  | [], _ => none
  | c :: revPref, rest =>
    match k rest with
    | some a => some (String.mk (c :: revPref).reverse, a)
    | none => sufBacktrack k revPref (c :: rest)

/-- The shared part of both patterns:
`^v(?P<version>[0-9.]+)(-(?P<version_suffix>[a-z0-9-]+))?` followed by
`matchTsSha` with continuation `tailK`.  Returns
`(version, version_suffix, timestamp, sha1_prefix, tail result)`. -/
def matchTagCore {α : Type} (tailK : List Char → Option α) (tag : String) :
    Option (String × Option String × String × String × α) :=
  match tag.toList with
  | 'v' :: cs0 =>
    let (ver, cs1) := spanChars isVerChar cs0
    if ver.isEmpty then none else
    let tsShaK := matchTsSha tailK
    let withSuf :=
      match cs1 with
      | '-' :: cs2 =>
        let (munch, rest) := spanChars isSufChar cs2
        sufBacktrack tsShaK munch.reverse rest
      | _ => none
    match withSuf with
    | some (suf, (ts, sha, a)) => some (String.mk ver, some suf, ts, sha, a)
    | none =>
      match tsShaK cs1 with
      | some (ts, sha, a) => some (String.mk ver, none, ts, sha, a)
      | none => none
  | _ => none

/-- One alternative of the OS-name alternation followed by the rest of the
pattern: the literal `name`, then `[0-9.]*`, then `-`, then the architecture
alternation and `$`. -/
def tryOsName (name : String) (cs : List Char) : Option (String × String) :=
  if name.toList.isPrefixOf cs then
    let cs1 := cs.drop name.toList.length
    let (osTail, cs2) := spanChars isVerChar cs1
    match cs2 with
    | '-' :: cs3 =>
      (matchArchEnd cs3).map (fun a => (name ++ String.mk osTail, a))
    | _ => none
  else none
where
  /-- `(?P<architecture>x86_64|aarch64|arm64)$`: the remainder must be exactly
  one of the three literals (`ARCH_RE_STR`). -/
  matchArchEnd (cs : List Char) : Option String :=
    if cs = "x86_64".toList then some "x86_64"
    else if cs = "aarch64".toList then some "aarch64"
    else if cs = "arm64".toList then some "arm64"
    else none

/-- The pattern `(?:name1|name2|...)[0-9.]*-(?:x86_64|aarch64|arm64)$`, alternatives tried
left to right. -/
def matchOsArch : List String → List Char → Option (String × String)
  | [], _ => none
  | name :: rest, cs =>
    match tryOsName name cs with
    | some r => some r
    | none => matchOsArch rest cs

/-- Matches `TAG_RE.match(tag)`: the full current-format pattern, anchored at both
ends.  `osNames` is the external `SHORT_OS_NAME_REGEX_STR` alternation. -/
def matchCurrent (osNames : List String) (tag : String) : Option RawFields :=
  (matchTagCore
      (fun cs =>
        match cs with
        | '-' :: cs1 => matchOsArch osNames cs1
        | _ => none)
      tag).map
    fun (v, suf, ts, sha, (os, arch)) =>
      { tag := tag, version := v, version_suffix := suf, timestamp := ts,
        sha1_prefix := sha, short_os_name_and_version := some os,
        architecture := some arch }

/-- Matches `TAG_RE_WITHOUT_OS_AND_ARCH.match(tag)`: the legacy pattern.  It has no
`$`, and `re.match` only anchors at the start, so any remainder after the
`sha1_prefix` group is accepted and ignored. -/
def matchLegacy (tag : String) : Option RawFields :=
  (matchTagCore (fun _ => some ()) tag).map
    fun (v, suf, ts, sha, _) =>
      { tag := tag, version := v, version_suffix := suf, timestamp := ts,
        sha1_prefix := sha, short_os_name_and_version := none,
        architecture := none }

/-- The legacy grammar as the spec states it (spec section 6: "anchored"):
identical to `matchLegacy` except that the whole string must be consumed.
This is a claim-side definition used to compare the spec's words with the
code; the code itself implements `matchLegacy`. -/
def matchLegacyAnchored (tag : String) : Option RawFields :=
  (matchTagCore (fun cs => if cs.isEmpty then some () else none) tag).map
    fun (v, suf, ts, sha, _) =>
      { tag := tag, version := v, version_suffix := suf, timestamp := ts,
        sha1_prefix := sha, short_os_name_and_version := none,
        architecture := none }

/-- Modelled from the spec: the Compatibility Oracle's vocabulary of
recognized short OS names.  `SHORT_OS_NAME_REGEX_STR` lives in the external
`sys_detection` package, outside this repository; the spec (sections 4.1 and
6) describes it as "a recognized short OS name", with these families
appearing in its examples.  Used to instantiate the `osNames` parameter for
concrete computations. -/
def specOsNames : List String := ["centos", "almalinux", "amzn", "ubuntu"]

/-! ## `ParsedTag.finish_init` and `ParsedTag.from_tag` -/

/-- The `yb_suffix_version` computation of `finish_init`:
`int(self.version_suffix[3:])` when the suffix is present and starts with
`yb-`, else `None`. -/
def ybSuffixVersion (version_suffix : Option String) : Except PyErr (Option Int) :=
  match version_suffix with
  | some suf =>
    if pyStartsWith suf "yb-" then
      match pyInt (pyDrop suf 3) with
      | .error e => .error e
      | .ok v => .ok (some v)
    else .ok none
  | none => .ok none

/-- The old-build branch of `finish_init`:
`assert not hasattr(self, attr) or getattr(self, attr) == default`.
`none` models the attribute being absent (the legacy regex has no such
group). -/
def checkOldDefault (v : Option String) (dflt : String) : Except PyErr Unit :=
  match v with
  | none => .ok ()
  | some s => if s = dflt then .ok () else .error .assertionError

/-- The method `ParsedTag.finish_init`.  Failure modes, in Python's evaluation order:
`IndexError` from `version_components[i]`, `ValueError` from `int(...)` on a
version component, `ValueError` from `int(self.version_suffix[3:])`, and
`AssertionError` from the old-build default checks (or from a missing
OS/architecture on a non-legacy tag).  The `assert x is not None` checks on
`version`, `timestamp` and `sha1_prefix` always pass here because those
fields are strings in `RawFields`. -/
def finish_init (r : RawFields) (is_old_tag_without_os_and_arch : Bool) :
    Except PyErr ParsedTag :=
  match pyIdxInt (pySplitDot r.version) 0 with
  | .error e => .error e
  | .ok major_version =>
  match pyIdxInt (pySplitDot r.version) 1 with
  | .error e => .error e
  | .ok minor_version =>
  match pyIdxInt (pySplitDot r.version) 2 with
  | .error e => .error e
  | .ok patch_version =>
  match ybSuffixVersion r.version_suffix with
  | .error e => .error e
  | .ok yb_suffix_version =>
  if is_old_tag_without_os_and_arch then
    match checkOldDefault r.short_os_name_and_version
        DEFAULT_SHORT_OS_NAME_AND_VERSION_FOR_OLD_BUILDS with
    | .error e => .error e
    | .ok _ =>
    match checkOldDefault r.architecture DEFAULT_ARCHITECTURE_FOR_OLD_BUILDS with
    | .error e => .error e
    | .ok _ =>
      .ok { tag := r.tag, version := r.version,
            version_suffix := r.version_suffix, timestamp := r.timestamp,
            sha1_prefix := r.sha1_prefix,
            short_os_name_and_version :=
              DEFAULT_SHORT_OS_NAME_AND_VERSION_FOR_OLD_BUILDS,
            architecture := DEFAULT_ARCHITECTURE_FOR_OLD_BUILDS,
            major_version, minor_version, patch_version, yb_suffix_version,
            is_old_tag_without_os_and_arch := true }
  else
    match r.short_os_name_and_version, r.architecture with
    | some os, some arch =>
      .ok { tag := r.tag, version := r.version,
            version_suffix := r.version_suffix, timestamp := r.timestamp,
            sha1_prefix := r.sha1_prefix, short_os_name_and_version := os,
            architecture := arch, major_version, minor_version, patch_version,
            yb_suffix_version, is_old_tag_without_os_and_arch := false }
    | _, _ => .error .assertionError

/-- The regex phase of `ParsedTag.from_tag`: try `TAG_RE` first, then
`TAG_RE_WITHOUT_OS_AND_ARCH`; the boolean is
`is_old_tag_without_os_and_arch`. -/
def matchTag (osNames : List String) (tag : String) :
    Option (RawFields × Bool) :=
  match matchCurrent osNames tag with
  | some r => some (r, false)
  | none =>
    match matchLegacy tag with
    | some r => some (r, true)
    | none => none

/-- Python `'|'.join(l)` (for `SHORT_OS_NAME_REGEX_STR`/`ARCH_RE_STR`). -/
def joinBar : List String → String
  | [] => ""
  | [s] => s
  | s :: rest => s ++ "|" ++ joinBar rest

/-- The string `TAG_RE_STR`, for the `TagParsingError` message (the OS alternation is the
external `SHORT_OS_NAME_REGEX_STR`). -/
def TAG_RE_STR (osNames : List String) : String :=
  "^v(?P<version>[0-9.]+)(-(?P<version_suffix>[a-z0-9-]+))?-(?P<timestamp>\\d+)" ++
  "-(?P<sha1_prefix>[0-9a-f]+)-(?P<short_os_name_and_version>(?:" ++
  joinBar osNames ++
  ")[0-9.]*)-(?P<architecture>x86_64|aarch64|arm64)$"

/-- The static method `ParsedTag.from_tag`. -/
def ParsedTag.from_tag (osNames : List String) (tag : String) :
    Except PyErr ParsedTag :=
  match matchTag osNames tag with
  | none =>
    .error (.tagParsingError
      ("Cannot parse tag: " ++ tag ++ ". Does not match regular expression: " ++
       TAG_RE_STR osNames))
  | some (r, is_old) => finish_init r is_old

/-! ## `as_dict` / `from_dict` -/

/-- A Python value as stored in the `as_dict` dictionary. -/
inductive PyValue where
  | vStr (s : String)
  | vInt (n : Int)
  | vBool (b : Bool)
  | vNone
deriving DecidableEq

/-- An optional string attribute as a dictionary value. -/
def optStrVal (v : Option String) : PyValue :=
  match v with
  | some s => .vStr s
  | none => .vNone

/-- An optional integer attribute as a dictionary value. -/
def optIntVal (v : Option Int) : PyValue :=
  match v with
  | some n => .vInt n
  | none => .vNone

/-- The method `ParsedTag.as_dict`: the attributes in `ATTR_NAMES` order (the six regex
group keys, then `tag`, the version integers, `yb_suffix_version` and the
legacy flag). -/
def ParsedTag.as_dict (t : ParsedTag) : List (String × PyValue) :=
  [("version", .vStr t.version),
   ("version_suffix", optStrVal t.version_suffix),
   ("timestamp", .vStr t.timestamp),
   ("sha1_prefix", .vStr t.sha1_prefix),
   ("short_os_name_and_version", .vStr t.short_os_name_and_version),
   ("architecture", .vStr t.architecture),
   ("tag", .vStr t.tag),
   ("major_version", .vInt t.major_version),
   ("minor_version", .vInt t.minor_version),
   ("patch_version", .vInt t.patch_version),
   ("yb_suffix_version", optIntVal t.yb_suffix_version),
   ("is_old_tag_without_os_and_arch", .vBool t.is_old_tag_without_os_and_arch)]

/-- Python `d.get(k)`: `None` when the key is missing. -/
def dGet (d : List (String × PyValue)) (k : String) : PyValue :=
  match d.lookup k with
  | some v => v
  | none => .vNone

/-- The static method `ParsedTag.from_dict`: `setattr` every `ATTR_NAMES` entry from the
dictionary, then run `finish_init` with the stored legacy flag (which
recomputes the version integers and `yb_suffix_version`, overwriting the
dictionary's values for them).  Python's dynamic attribute types are modelled
by typed extraction: a non-boolean legacy flag fails `finish_init`'s first
assertion, and a non-string where `finish_init` calls a string method raises
`AttributeError`; on well-typed dictionaries (the only kind the dataset
contains) this is exact. -/
def ParsedTag.from_dict (d : List (String × PyValue)) : Except PyErr ParsedTag :=
  match dGet d "is_old_tag_without_os_and_arch" with
  | .vBool is_old =>
    match dGet d "version" with
    | .vStr version =>
      match dGet d "version_suffix" with
      | .vStr s => fromFields d version (some s) is_old
      | .vNone => fromFields d version none is_old
      | _ => .error .attributeError
    | _ => .error .attributeError
  | _ => .error .assertionError
where
  optStrField (v : PyValue) : Except PyErr (Option String) :=
    match v with
    | .vStr s => .ok (some s)
    | .vNone => .ok none
    | _ => .error .attributeError
  fromFields (d : List (String × PyValue)) (version : String)
      (version_suffix : Option String) (is_old : Bool) :
      Except PyErr ParsedTag :=
    match dGet d "timestamp" with
    | .vStr timestamp =>
      match dGet d "sha1_prefix" with
      | .vStr sha1 =>
        match optStrField (dGet d "short_os_name_and_version") with
        | .error e => .error e
        | .ok short_os =>
        match optStrField (dGet d "architecture") with
        | .error e => .error e
        | .ok arch =>
        match dGet d "tag" with
        | .vStr tag =>
          finish_init
            { tag := tag, version := version, version_suffix := version_suffix,
              timestamp := timestamp, sha1_prefix := sha1,
              short_os_name_and_version := short_os, architecture := arch }
            is_old
        | _ => .error .attributeError
      | _ => .error .assertionError
    | _ => .error .assertionError

/-! ## Version tuples and the selector -/

/-- The 5-tuple returned by `ParsedTag.get_version_tuple`. -/
abbrev VTuple := Int × Int × Int × Int × Int

/-- The method `ParsedTag.get_version_tuple`:
`(major, minor, patch, yb_suffix_version or 0, int(timestamp))`.
`self.yb_suffix_version or 0` is `0` exactly when the field is `None` or `0`,
which coincides with `Option.getD 0`; `int(self.timestamp)` can raise
`ValueError` (the `is not None` guard always holds for parsed tags). -/
def ParsedTag.get_version_tuple (t : ParsedTag) : Except PyErr VTuple :=
  match pyInt t.timestamp with
  | .error e => .error e
  | .ok ts =>
    .ok (t.major_version, t.minor_version, t.patch_version,
         t.yb_suffix_version.getD 0, ts)

/-- The version tuple with a zero default on error; used only to state
decidable hypotheses about candidate lists. -/
def ParsedTag.keyD (t : ParsedTag) : VTuple :=
  match t.get_version_tuple with
  | .ok v => v
  | .error _ => (0, 0, 0, 0, 0)

/-- Python `<` on the 5-tuples: lexicographic, all components integers. -/
def vtupleLt (a b : VTuple) : Bool :=
  decide (a.1 < b.1) ||
  (decide (a.1 = b.1) &&
    (decide (a.2.1 < b.2.1) ||
      (decide (a.2.1 = b.2.1) &&
        (decide (a.2.2.1 < b.2.2.1) ||
          (decide (a.2.2.1 = b.2.2.1) &&
            (decide (a.2.2.2.1 < b.2.2.2.1) ||
              (decide (a.2.2.2.1 = b.2.2.2.1) &&
                decide (a.2.2.2.2 < b.2.2.2.2))))))))

/-- Python `max` over a nonempty list of tuples: keeps the current candidate
unless a strictly greater element appears (so the first maximal element is
returned, as in Python). -/
def pyListMax (v : VTuple) (vs : List VTuple) : VTuple :=
  vs.foldl (fun a b => if vtupleLt a b then b else a) v

/-- The list comprehension `[pt.get_version_tuple() for pt in parsed_tags]`:
the first raised exception propagates. -/
def mapTuples : List ParsedTag → Except PyErr (List VTuple)
  | [] => .ok []
  | t :: rest =>
    match t.get_version_tuple with
    | .error e => .error e
    | .ok v =>
      match mapTuples rest with
      | .error e => .error e
      | .ok vs => .ok (v :: vs)

/-! ## Diagnostic rendering (`__repr__`, `one_per_line_str`) -/

/-- Python `repr` of the strings appearing here (tags, OS names and
architectures contain no quotes, backslashes or unprintable characters, so
`repr(s)` is the string between single quotes). -/
def pyReprStr (s : String) : String := "'" ++ s ++ "'"

/-- Python `repr` of an optional string attribute. -/
def pyReprOptStr (v : Option String) : String :=
  match v with
  | some s => pyReprStr s
  | none => "None"

/-- Python `repr` of an optional integer attribute. -/
def pyReprOptInt (v : Option Int) : String :=
  match v with
  | some n => toString n
  | none => "None"

/-- Python `repr` of a boolean. -/
def pyReprBool (b : Bool) : String := if b then "True" else "False"

/-- Python `sep.join(l)`. -/
def pyJoin (sep : String) : List String → String
  | [] => ""
  | [s] => s
  | s :: rest => s ++ sep ++ pyJoin sep rest

/-- The method `ParsedTag.__repr__`: `ParsedTag(k=repr(v), ...)` over `ATTR_NAMES` in
order. -/
def pyReprTag (t : ParsedTag) : String :=
  "ParsedTag(" ++
  pyJoin ", "
    ["version=" ++ pyReprStr t.version,
     "version_suffix=" ++ pyReprOptStr t.version_suffix,
     "timestamp=" ++ pyReprStr t.timestamp,
     "sha1_prefix=" ++ pyReprStr t.sha1_prefix,
     "short_os_name_and_version=" ++ pyReprStr t.short_os_name_and_version,
     "architecture=" ++ pyReprStr t.architecture,
     "tag=" ++ pyReprStr t.tag,
     "major_version=" ++ toString t.major_version,
     "minor_version=" ++ toString t.minor_version,
     "patch_version=" ++ toString t.patch_version,
     "yb_suffix_version=" ++ pyReprOptInt t.yb_suffix_version,
     "is_old_tag_without_os_and_arch=" ++ pyReprBool t.is_old_tag_without_os_and_arch] ++
  ")"

/-- The method `LlvmPackageCollection.one_per_line_str` with the default indent of 4. -/
def onePerLineStr (packages : List ParsedTag) : String :=
  "    " ++ pyJoin ("\n" ++ "    ") (packages.map pyReprTag)

/-- Python `str` of the 5-tuple: `(a, b, c, d, e)`. -/
def pyStrTuple (v : VTuple) : String :=
  "(" ++ toString v.1 ++ ", " ++ toString v.2.1 ++ ", " ++ toString v.2.2.1 ++
  ", " ++ toString v.2.2.2.1 ++ ", " ++ toString v.2.2.2.2 ++ ")"

/-! ## The catalog filter and the selector -/

/-- The method `LlvmPackageCollection.filter`.  A collection is modelled as the list of
its parsed tags; `is_compatible_os` belongs to the external `sys_detection`
package and is kept as the parameter `compatOs` (candidate's OS first,
requested OS second, as at the call site). -/
def filterTags (compatOs : String → String → Bool) (parsed_tags : List ParsedTag)
    (major_llvm_version : Int) (short_os_name_and_version : String)
    (architecture : String) : List ParsedTag :=
  parsed_tags.filter fun t =>
    pyStartsWith t.version (toString major_llvm_version ++ ".") &&
    compatOs t.short_os_name_and_version short_os_name_and_version &&
    t.architecture == architecture

instance {ε α : Type} [DecidableEq ε] [DecidableEq α] :
    DecidableEq (Except ε α) := fun a b =>
  match a, b with
  | .ok x, .ok y =>
    if h : x = y then .isTrue (by rw [h]) else .isFalse (by simp [h])
  | .error x, .error y =>
    if h : x = y then .isTrue (by rw [h]) else .isFalse (by simp [h])
  | .ok _, .error _ => .isFalse (by simp)
  | .error _, .ok _ => .isFalse (by simp)

/-- The two failure modes of `LlvmInstaller.get_parsed_tag`.  Python raises
`ValueError` at both sites; the constructors record which site (they are the
spec's `NoMatchingReleaseError` and `AmbiguousReleaseError`), each carrying
the exact message.  `tupleError` propagates an exception raised while
computing the version tuples. -/
inductive SelectError where
  | noMatchingRelease (msg : String)
  | ambiguousRelease (msg : String)
  | tupleError (e : PyErr)
deriving DecidableEq

/-- The message of the ambiguous-release `ValueError`: note that it renders
the whole filtered candidate list, which in particular lists every tied
candidate. -/
def ambiguousMsg (selection_criteria_str : String) (maxT : VTuple)
    (parsed_tags : List ParsedTag) : String :=
  "Multiple packages found for " ++ selection_criteria_str ++
  " with the same highest version tuple (" ++ pyStrTuple maxT ++ "): " ++
  pyJoin "\n" (parsed_tags.map pyReprTag)

/-- Lines 289-309 of `LlvmInstaller.get_parsed_tag`: the selection over the
already-filtered candidate list.  `packages` is the unfiltered catalog, used
only in the empty-case diagnostic.  The second component collects the
warning-level side-channel messages (`logging.warning`). -/
def selectTags (parsed_tags : List ParsedTag) (selection_criteria_str : String)
    (packages : List ParsedTag) : Except SelectError ParsedTag × List String :=
  match parsed_tags with
  | [] =>
    let error_msg :=
      "Could not find an LLVM release for " ++ selection_criteria_str
    (.error (.noMatchingRelease error_msg),
     [error_msg ++ ". Available packages:\n" ++ onePerLineStr packages])
  | [t] => (.ok t, [])
  | _ =>
    match mapTuples parsed_tags with
    | .error e => (.error (.tupleError e), [])
    | .ok tuples =>
      match tuples with
      | [] => (.error (.tupleError (.valueError "max() arg is an empty sequence")), [])
      | v :: vs =>
        let max_version_tuple := pyListMax v vs
        let highest_version_tags :=
          parsed_tags.filter fun t =>
            decide (t.get_version_tuple = .ok max_version_tuple)
        match highest_version_tags with
        | [t] => (.ok t, [])
        | _ =>
          (.error (.ambiguousRelease
            (ambiguousMsg selection_criteria_str max_version_tuple parsed_tags)), [])

/-- The method `LlvmInstaller.get_parsed_tag`, with the process-wide catalog singleton
(`LlvmPackageCollection.get_instance`, a file read) replaced by the explicit
`packages` parameter and the installer's OS/architecture fields passed
directly. -/
def get_parsed_tag (compatOs : String → String → Bool)
    (packages : List ParsedTag) (short_os_name_and_version : String)
    (architecture : String) (major_llvm_version : Int) :
    Except SelectError ParsedTag × List String :=
  let filtered_packages :=
    filterTags compatOs packages major_llvm_version short_os_name_and_version
      architecture
  let selection_criteria_str :=
    pyJoin ", "
      ["major LLVM version " ++ toString major_llvm_version,
       "OS/version " ++ short_os_name_and_version,
       "architecture " ++ architecture]
  selectTags filtered_packages selection_criteria_str packages

/-! ## The URL builder -/

/-- The URL-relevant fields of `LlvmInstaller`. -/
structure LlvmInstaller where
  github_release_url_prefix : String
  package_name_prefix : String
  package_name_suffix : String
deriving DecidableEq

/-- The trailing-slash normalisation in `LlvmInstaller.__init__`:
`if prefix.endswith('/'): prefix = prefix[:-1]` (one slash removed). -/
def stripTrailingSlash (s : String) : String :=
  if s.toList.getLast? = some '/' then String.mk s.toList.dropLast else s

/-- The constructor `LlvmInstaller.__init__` restricted to explicitly supplied URL naming
arguments (the `None` defaults read the local system configuration and the
module constants, which do not affect the URL construction contract). -/
def LlvmInstaller.make ( github_release_url_prefix : String)
    ( package_name_prefix : String) (package_name_suffix : String) :
    LlvmInstaller :=
  { github_release_url_prefix := stripTrailingSlash github_release_url_prefix,
    package_name_prefix, package_name_suffix }

/-- The method `LlvmInstaller.get_url_for_tag`:
`''.join([prefix, '/', tag, '/', name_prefix, tag, name_suffix])`. -/
def LlvmInstaller.get_url_for_tag (i : LlvmInstaller) (tag : String) : String :=
  i.github_release_url_prefix ++ "/" ++ tag ++ "/" ++
  i.package_name_prefix ++ tag ++ i.package_name_suffix

/-! ## Concrete records used by witnesses and counterexamples -/

/-- The first tied candidate used in the C2 witness. -/
def c2TagA : ParsedTag :=
  { tag := "v14.0.3-1651708261-aaaa1111-centos7-x86_64",
    version := "14.0.3", version_suffix := none,
    timestamp := "1651708261", sha1_prefix := "aaaa1111",
    short_os_name_and_version := "centos7", architecture := "x86_64",
    major_version := 14, minor_version := 0, patch_version := 3,
    yb_suffix_version := none, is_old_tag_without_os_and_arch := false }

/-- The second tied candidate used in the C2 witness: same version tuple,
different commit prefix. -/
def c2TagB : ParsedTag :=
  { tag := "v14.0.3-1651708261-bbbb2222-centos7-x86_64",
    version := "14.0.3", version_suffix := none,
    timestamp := "1651708261", sha1_prefix := "bbbb2222",
    short_os_name_and_version := "centos7", architecture := "x86_64",
    major_version := 14, minor_version := 0, patch_version := 3,
    yb_suffix_version := none, is_old_tag_without_os_and_arch := false }

/-- The parse of `v014.0.3-1633099975-130bd22e`: a legitimate catalog entry
whose `major_version` is `14` but whose `version` string does not start with
`"14."`. -/
def c3Tag : ParsedTag :=
  { tag := "v014.0.3-1633099975-130bd22e",
    version := "014.0.3", version_suffix := none,
    timestamp := "1633099975", sha1_prefix := "130bd22e",
    short_os_name_and_version := "centos7", architecture := "x86_64",
    major_version := 14, minor_version := 0, patch_version := 3,
    yb_suffix_version := none, is_old_tag_without_os_and_arch := true }

/-- The raw fields a finished `ParsedTag` presents to a second
`finish_init` run (as in `from_dict`, where every attribute is set). -/
def rawOf (t : ParsedTag) : RawFields :=
  { tag := t.tag, version := t.version, version_suffix := t.version_suffix,
    timestamp := t.timestamp, sha1_prefix := t.sha1_prefix,
    short_os_name_and_version := some t.short_os_name_and_version,
    architecture := some t.architecture }

/-- The claim's notion of a "non-empty decimal numeral": one or more digits
and nothing else.  Claim-side definition, used to compare the claim's words
with the code's actual `int()` acceptance (which additionally admits a
leading minus sign). -/
def isDecimalNumeral (w : String) : Bool :=
  !w.toList.isEmpty && w.toList.all Char.isDigit

/-- The raw fields matched for the C10 witness identifier
`v1.2.3-yb-beta-1648363631-abcdef`. -/
def c10Raw : RawFields :=
  { tag := "v1.2.3-yb-beta-1648363631-abcdef", version := "1.2.3",
    version_suffix := some "yb-beta", timestamp := "1648363631",
    sha1_prefix := "abcdef", short_os_name_and_version := none,
    architecture := none }

/-- The C10 witness identifier parsed with its suffix removed: every other
field passes `finish_init`. -/
def c10Rest : ParsedTag :=
  { tag := "v1.2.3-yb-beta-1648363631-abcdef", version := "1.2.3",
    version_suffix := none, timestamp := "1648363631",
    sha1_prefix := "abcdef", short_os_name_and_version := "centos7",
    architecture := "x86_64", major_version := 1, minor_version := 2,
    patch_version := 3, yb_suffix_version := none,
    is_old_tag_without_os_and_arch := true }

/-! ## Order lemmas for version tuples -/

lemma vtupleLt_irrefl (a : VTuple) : vtupleLt a a = false := by
  obtain ⟨a1, a2, a3, a4, a5⟩ := a
  simp [vtupleLt]

lemma vtupleLt_eq_of_not_lt {a b : VTuple} (h1 : vtupleLt a b = false)
    (h2 : vtupleLt b a = false) : a = b := by
  obtain ⟨a1, a2, a3, a4, a5⟩ := a
  obtain ⟨b1, b2, b3, b4, b5⟩ := b
  simp only [vtupleLt, Bool.or_eq_false_iff, Bool.and_eq_false_iff,
    decide_eq_false_iff_not, Prod.mk.injEq] at h1 h2 ⊢
  omega

lemma vtupleLt_trans {a b c : VTuple} (h1 : vtupleLt a b = true)
    (h2 : vtupleLt b c = true) : vtupleLt a c = true := by
  obtain ⟨a1, a2, a3, a4, a5⟩ := a
  obtain ⟨b1, b2, b3, b4, b5⟩ := b
  obtain ⟨c1, c2, c3, c4, c5⟩ := c
  simp only [vtupleLt, Bool.or_eq_true, Bool.and_eq_true,
    decide_eq_true_eq] at h1 h2 ⊢
  omega

lemma vtupleLt_not_lt_trans {a b c : VTuple} (h1 : vtupleLt a b = false)
    (h2 : vtupleLt b c = false) : vtupleLt a c = false := by
  obtain ⟨a1, a2, a3, a4, a5⟩ := a
  obtain ⟨b1, b2, b3, b4, b5⟩ := b
  obtain ⟨c1, c2, c3, c4, c5⟩ := c
  simp only [vtupleLt, Bool.or_eq_false_iff, Bool.and_eq_false_iff,
    decide_eq_false_iff_not] at h1 h2 ⊢
  omega

lemma pyListMax_mem (v : VTuple) (vs : List VTuple) :
    pyListMax v vs ∈ v :: vs := by
  induction vs generalizing v with
  | nil => simp [pyListMax]
  | cons b vs ih =>
    have hstep : pyListMax v (b :: vs)
        = pyListMax (if vtupleLt v b then b else v) vs := rfl
    rw [hstep]
    by_cases hvb : vtupleLt v b = true
    · simp only [hvb, if_true]
      rcases List.mem_cons.mp (ih b) with h | h
      · rw [h]; simp
      · exact List.mem_cons_of_mem _ (List.mem_cons_of_mem _ h)
    · simp only [Bool.not_eq_true] at hvb
      simp only [hvb, Bool.false_eq_true, if_false]
      rcases List.mem_cons.mp (ih v) with h | h
      · rw [h]; simp
      · exact List.mem_cons_of_mem _ (List.mem_cons_of_mem _ h)

lemma pyListMax_ub (v : VTuple) (vs : List VTuple) :
    ∀ x ∈ v :: vs, vtupleLt (pyListMax v vs) x = false := by
  induction vs generalizing v with
  | nil =>
    intro x hx
    simp only [List.mem_singleton] at hx
    subst hx
    exact vtupleLt_irrefl _
  | cons b vs ih =>
    intro x hx
    have hstep : pyListMax v (b :: vs)
        = pyListMax (if vtupleLt v b then b else v) vs := rfl
    rw [hstep]
    by_cases hvb : vtupleLt v b = true
    · simp only [hvb, if_true]
      have hb : vtupleLt (pyListMax b vs) b = false :=
        ih b _ (List.mem_cons_self _ _)
      rcases List.mem_cons.mp hx with rfl | hx1
      · by_contra hc
        simp only [Bool.not_eq_false] at hc
        have := vtupleLt_trans hc hvb
        rw [this] at hb
        exact absurd hb (by simp)
      · rcases List.mem_cons.mp hx1 with rfl | hx2
        · exact hb
        · exact ih b _ (List.mem_cons_of_mem _ hx2)
    · simp only [Bool.not_eq_true] at hvb
      simp only [hvb, Bool.false_eq_true, if_false]
      have hv : vtupleLt (pyListMax v vs) v = false :=
        ih v _ (List.mem_cons_self _ _)
      rcases List.mem_cons.mp hx with rfl | hx1
      · exact hv
      · rcases List.mem_cons.mp hx1 with rfl | hx2
        · exact vtupleLt_not_lt_trans hv hvb
        · exact ih v _ (List.mem_cons_of_mem _ hx2)

/-! ## Tuple computation lemmas -/

lemma keyD_spec {t : ParsedTag} (h : exceptIsOk t.get_version_tuple = true) :
    t.get_version_tuple = .ok t.keyD := by
  unfold ParsedTag.keyD
  cases hv : t.get_version_tuple with
  | ok v => rfl
  | error e => rw [hv] at h; simp [exceptIsOk] at h

lemma mapTuples_ok {l : List ParsedTag}
    (h : ∀ t ∈ l, exceptIsOk t.get_version_tuple = true) :
    mapTuples l = .ok (l.map ParsedTag.keyD) := by
  induction l with
  | nil => rfl
  | cons t rest ih =>
    have ht := keyD_spec (h t (List.mem_cons_self _ _))
    have hrest := ih (fun u hu => h u (List.mem_cons_of_mem _ hu))
    simp [mapTuples, ht, hrest]

/-! ## Selector characterization -/

lemma selectTags_of_max (a b : ParsedTag) (rest packages : List ParsedTag)
    (crit : String) (M : VTuple)
    (hts : ∀ t ∈ a :: b :: rest, exceptIsOk t.get_version_tuple = true)
    (hub : ∀ t ∈ a :: b :: rest, vtupleLt M t.keyD = false)
    (hatt : ∃ t, t ∈ a :: b :: rest ∧ t.keyD = M) :
    selectTags (a :: b :: rest) crit packages =
      match (a :: b :: rest).filter
          (fun t => decide (t.get_version_tuple = .ok M)) with
      | [t] => (.ok t, [])
      | _ =>
        (.error (.ambiguousRelease (ambiguousMsg crit M (a :: b :: rest))), []) := by
  have hmap : mapTuples (a :: b :: rest)
      = .ok ((a :: b :: rest).map ParsedTag.keyD) := mapTuples_ok hts
  have hMeq : pyListMax a.keyD ((b :: rest).map ParsedTag.keyD) = M := by
    have hmem := pyListMax_mem a.keyD ((b :: rest).map ParsedTag.keyD)
    have hshape : a.keyD :: (b :: rest).map ParsedTag.keyD
        = (a :: b :: rest).map ParsedTag.keyD := by simp
    rw [hshape] at hmem
    obtain ⟨t0, ht0, ht0eq⟩ := List.mem_map.mp hmem
    have h1 : vtupleLt M (pyListMax a.keyD ((b :: rest).map ParsedTag.keyD)) = false := by
      have := hub t0 ht0
      rw [ht0eq] at this
      exact this
    obtain ⟨tm, htm, htmeq⟩ := hatt
    have hMmem : M ∈ a.keyD :: (b :: rest).map ParsedTag.keyD := by
      rw [hshape]
      exact htmeq ▸ List.mem_map_of_mem ParsedTag.keyD htm
    have h2 : vtupleLt (pyListMax a.keyD ((b :: rest).map ParsedTag.keyD)) M = false :=
      pyListMax_ub _ _ _ hMmem
    exact vtupleLt_eq_of_not_lt h2 h1
  show (match mapTuples (a :: b :: rest) with
    | Except.error e =>
      (Except.error (SelectError.tupleError e), ([] : List String))
    | Except.ok tuples =>
      match tuples with
      | [] =>
        (Except.error (SelectError.tupleError
          (PyErr.valueError "max() arg is an empty sequence")), [])
      | v :: vs =>
        let max_version_tuple := pyListMax v vs
        let highest_version_tags :=
          (a :: b :: rest).filter fun t =>
            decide (ParsedTag.get_version_tuple t = Except.ok max_version_tuple)
        match highest_version_tags with
        | [t] => (Except.ok t, [])
        | _ =>
          (Except.error (SelectError.ambiguousRelease
            (ambiguousMsg crit max_version_tuple (a :: b :: rest))), [])) = _
  rw [hmap]
  simp only [List.map_cons]
  simp only [List.map_cons] at hMeq
  rw [hMeq]

/-- C1.  The selector over a filtered candidate list of two or more entries:
the candidates' 5-tuples `(major_version, minor_version, patch_version,
yb_suffix_version or 0, int(timestamp))` are compared lexicographically as
integers (`vtupleLt`); `M` is their maximum (attained, and not below any
candidate's tuple), and when exactly one candidate attains `M`, the selector
returns that candidate. -/
theorem C1_select_unique_max (cands packages : List ParsedTag) (crit : String)
    (c : ParsedTag) (M : VTuple)
    (hlen : 2 ≤ cands.length)
    (hts : ∀ t ∈ cands, exceptIsOk t.get_version_tuple = true)
    (hub : ∀ t ∈ cands, vtupleLt M t.keyD = false)
    (huniq : cands.filter (fun t => decide (t.get_version_tuple = .ok M)) = [c]) :
    selectTags cands crit packages = (.ok c, []) := by
  match cands, hlen with
  | a :: b :: rest, _ =>
    have hatt : ∃ t, t ∈ a :: b :: rest ∧ t.keyD = M := by
      have hc : c ∈ (a :: b :: rest).filter
          (fun t => decide (t.get_version_tuple = .ok M)) := by
        rw [huniq]; exact List.mem_singleton.mpr rfl
      have hcmem := List.mem_of_mem_filter hc
      have hcp := List.of_mem_filter hc
      simp only [decide_eq_true_eq] at hcp
      refine ⟨c, hcmem, ?_⟩
      unfold ParsedTag.keyD
      rw [hcp]
    rw [selectTags_of_max a b rest packages crit M hts hub hatt, huniq]

/-- Witness for C1, including the spec's concrete scenario: candidates with
keys `(14,0,0,0,1648363631)` and `(14,0,3,0,1651708261)` for the same
OS/architecture; the selector returns the `14.0.3` entry. -/
theorem C1_select_unique_max_witness :
    selectTags
      [{ tag := "v14.0.0-1648363631-abcd1234-centos7-x86_64",
         version := "14.0.0", version_suffix := none,
         timestamp := "1648363631", sha1_prefix := "abcd1234",
         short_os_name_and_version := "centos7", architecture := "x86_64",
         major_version := 14, minor_version := 0, patch_version := 0,
         yb_suffix_version := none, is_old_tag_without_os_and_arch := false },
       { tag := "v14.0.3-1651708261-ef567890-centos7-x86_64",
         version := "14.0.3", version_suffix := none,
         timestamp := "1651708261", sha1_prefix := "ef567890",
         short_os_name_and_version := "centos7", architecture := "x86_64",
         major_version := 14, minor_version := 0, patch_version := 3,
         yb_suffix_version := none, is_old_tag_without_os_and_arch := false }]
      "crit" []
    = (.ok { tag := "v14.0.3-1651708261-ef567890-centos7-x86_64",
             version := "14.0.3", version_suffix := none,
             timestamp := "1651708261", sha1_prefix := "ef567890",
             short_os_name_and_version := "centos7", architecture := "x86_64",
             major_version := 14, minor_version := 0, patch_version := 3,
             yb_suffix_version := none,
             is_old_tag_without_os_and_arch := false }, []) :=
  C1_select_unique_max _ _ _ _ (14, 0, 3, 0, 1651708261)
    (by decide) (by decide) (by decide) (by decide)

/-! ## C2: genuine ambiguity -/

lemma pyJoin_infix (sep : String) (l : List String) (s : String) (h : s ∈ l) :
    ∃ pre post, pyJoin sep l = pre ++ s ++ post := by
  induction l with
  | nil => simp at h
  | cons x xs ih =>
    rcases List.mem_cons.mp h with rfl | hxs
    · cases xs with
      | nil => exact ⟨"", "", by simp [pyJoin]⟩
      | cons y ys =>
        refine ⟨"", sep ++ pyJoin sep (y :: ys), ?_⟩
        show pyJoin sep (s :: y :: ys) = "" ++ s ++ (sep ++ pyJoin sep (y :: ys))
        simp [pyJoin, String.append_assoc]
    · obtain ⟨pre, post, hpp⟩ := ih hxs
      cases xs with
      | nil => simp at hxs
      | cons y ys =>
        refine ⟨x ++ sep ++ pre, post, ?_⟩
        show pyJoin sep (x :: y :: ys) = x ++ sep ++ pre ++ s ++ post
        have : pyJoin sep (x :: y :: ys) = x ++ sep ++ pyJoin sep (y :: ys) := rfl
        rw [this, hpp]
        simp [String.append_assoc]

lemma ambiguousMsg_lists (crit : String) (M : VTuple) (cands : List ParsedTag)
    (t : ParsedTag) (h : t ∈ cands) :
    ∃ pre post, ambiguousMsg crit M cands = pre ++ pyReprTag t ++ post := by
  obtain ⟨pre, post, hpp⟩ :=
    pyJoin_infix "\n" (cands.map pyReprTag) (pyReprTag t)
      (List.mem_map_of_mem pyReprTag h)
  refine ⟨"Multiple packages found for " ++ crit ++
    " with the same highest version tuple (" ++ pyStrTuple M ++ "): " ++ pre,
    post, ?_⟩
  unfold ambiguousMsg
  rw [hpp]
  simp [String.append_assoc]

/-- C2.  A candidate list containing two distinct entries with the same
version tuple `M` but different commit prefixes, where `M` is the maximum
tuple over the list: the selector fails with the ambiguous-release
`ValueError` (the spec's `AmbiguousReleaseError`), whose message lists every
candidate tied at the maximum; it never returns any entry. -/
theorem C2_ambiguous_tie (cands packages : List ParsedTag) (crit : String)
    (t1 t2 : ParsedTag) (M : VTuple)
    (h1 : t1 ∈ cands) (h2 : t2 ∈ cands) (hne : t1 ≠ t2)
    (hsha : t1.sha1_prefix ≠ t2.sha1_prefix)
    (hk1 : t1.get_version_tuple = .ok M) (hk2 : t2.get_version_tuple = .ok M)
    (hts : ∀ t ∈ cands, exceptIsOk t.get_version_tuple = true)
    (hub : ∀ t ∈ cands, vtupleLt M t.keyD = false) :
    selectTags cands crit packages
      = (.error (.ambiguousRelease (ambiguousMsg crit M cands)), []) ∧
    (∀ t ∈ cands, t.get_version_tuple = .ok M →
      ∃ pre post, ambiguousMsg crit M cands = pre ++ pyReprTag t ++ post) ∧
    (∀ u : ParsedTag, (selectTags cands crit packages).1 ≠ .ok u) := by
  have hmain : selectTags cands crit packages
      = (.error (.ambiguousRelease (ambiguousMsg crit M cands)), []) := by
    match cands, h1, h2 with
    | [x], hm1, hm2 =>
      have e1 : t1 = x := List.mem_singleton.mp hm1
      have e2 : t2 = x := List.mem_singleton.mp hm2
      exact absurd (e1.trans e2.symm) hne
    | a :: b :: rest, hm1, hm2 =>
      have hatt : ∃ t, t ∈ a :: b :: rest ∧ t.keyD = M :=
        ⟨t1, hm1, by unfold ParsedTag.keyD; rw [hk1]⟩
      rw [selectTags_of_max a b rest packages crit M hts hub hatt]
      have hf1 : t1 ∈ (a :: b :: rest).filter
          (fun t => decide (t.get_version_tuple = .ok M)) :=
        List.mem_filter.mpr ⟨hm1, by simp [hk1]⟩
      have hf2 : t2 ∈ (a :: b :: rest).filter
          (fun t => decide (t.get_version_tuple = .ok M)) :=
        List.mem_filter.mpr ⟨hm2, by simp [hk2]⟩
      cases hfl : (a :: b :: rest).filter
          (fun t => decide (t.get_version_tuple = .ok M)) with
      | nil => rfl
      | cons u us =>
        cases us with
        | nil =>
          rw [hfl] at hf1 hf2
          have e1 : t1 = u := List.mem_singleton.mp hf1
          have e2 : t2 = u := List.mem_singleton.mp hf2
          exact absurd (e1.trans e2.symm) hne
        | cons w ws => rfl
  refine ⟨hmain, ?_, ?_⟩
  · intro t ht _
    exact ambiguousMsg_lists crit M cands t ht
  · intro u
    rw [hmain]
    simp

/-- Witness for C2: two candidates tied at `(14,0,3,0,1651708261)` with
different commit prefixes; the selector fails with the ambiguous error rather
than returning either. -/
theorem C2_ambiguous_tie_witness :
    selectTags [c2TagA, c2TagB] "crit" []
      = (.error (.ambiguousRelease
          (ambiguousMsg "crit" (14, 0, 3, 0, 1651708261) [c2TagA, c2TagB])), []) :=
  (C2_ambiguous_tie [c2TagA, c2TagB] [] "crit" c2TagA c2TagB
    (14, 0, 3, 0, 1651708261)
    (by decide) (by decide) (by decide) (by decide) (by decide) (by decide)
    (by decide) (by decide)).1

/-! ## C3: the catalog filter -/

/-- C3, amended.  `filter` returns exactly the entries whose `version` string
starts with `str(majorVersion)` followed by a dot (the code's test — it
implies the major version equals `majorVersion`, but also excludes
zero-padded spellings such as `"014.0.3"`), whose OS/version the
Compatibility Oracle accepts for the requested OS (candidate first, request
second), and whose architecture is exactly string-equal to the requested one;
the source order is preserved (the result is a sublist of the source) and the
source list is untouched. -/
theorem C3_filter_amended (compatOs : String → String → Bool)
    (tags : List ParsedTag) (major : Int) (os arch : String) :
    (filterTags compatOs tags major os arch).Sublist tags ∧
    (∀ t : ParsedTag,
      t ∈ filterTags compatOs tags major os arch ↔
        (t ∈ tags ∧
         pyStartsWith t.version (toString major ++ ".") = true ∧
         compatOs t.short_os_name_and_version os = true ∧
         t.architecture = arch)) := by
  constructor
  · exact List.filter_sublist _
  · intro t
    unfold filterTags
    rw [List.mem_filter]
    simp [Bool.and_eq_true, and_assoc]

/-- Counterexample to C3 as stated: `c3Tag` is produced by the parser, its
major version equals the requested `14`, its architecture matches exactly and
the oracle accepts its OS, yet `filter` drops it (the code compares the
version string against `str(14) + "."`, not the major version). -/
theorem C3_counterexample :
    ParsedTag.from_tag specOsNames "v014.0.3-1633099975-130bd22e" = .ok c3Tag ∧
    c3Tag.major_version = 14 ∧
    c3Tag.architecture = "x86_64" ∧
    filterTags (fun _ _ => true) [c3Tag] 14 "centos7" "x86_64" = [] := by
  refine ⟨by decide, rfl, rfl, by decide⟩

/-! ## C9: the URL builder -/

/-- C9.  `get_url_for_tag` produces exactly
`{prefix}/{tag}/{name_prefix}{tag}{name_suffix}` where the base URL prefix
has a trailing slash stripped on construction; including the spec's concrete
example. -/
theorem C9_url (tag base npre nsuf : String) :
    (LlvmInstaller.make base npre nsuf).get_url_for_tag tag
      = stripTrailingSlash base ++ "/" ++ tag ++ "/" ++ npre ++ tag ++ nsuf ∧
    (LlvmInstaller.make "https://example.com/releases" "pkg-"
        ".tar.gz").get_url_for_tag
        "v14.0.3-1651732108-1f914006-ubuntu22.04-x86_64"
      = "https://example.com/releases/v14.0.3-1651732108-1f914006-ubuntu22.04-x86_64/pkg-v14.0.3-1651732108-1f914006-ubuntu22.04-x86_64.tar.gz" :=
  ⟨rfl, by decide⟩

/-! ## C8: no matching release -/

/-- C8.  When filtering yields no candidate, `get_parsed_tag` fails with the
no-matching-release `ValueError` (the spec's `NoMatchingReleaseError`), whose
message embeds the requested major version, OS and architecture verbatim, and
emits exactly one warning-level side-channel message carrying that message
plus the full unfiltered catalog's rendering.  The failure is immediate:
the function's only outcome is this error, never a retry. -/
theorem C8_no_matching (compatOs : String → String → Bool)
    (packages : List ParsedTag) (os arch : String) (major : Int)
    (hempty : filterTags compatOs packages major os arch = []) :
    ∃ msg,
      get_parsed_tag compatOs packages os arch major =
        (.error (.noMatchingRelease msg),
         [msg ++ ". Available packages:\n" ++ onePerLineStr packages]) ∧
      (∃ pre post, msg = pre ++ toString major ++ post) ∧
      (∃ pre post, msg = pre ++ os ++ post) ∧
      (∃ pre post, msg = pre ++ arch ++ post) := by
  refine ⟨"Could not find an LLVM release for " ++
    pyJoin ", "
      ["major LLVM version " ++ toString major,
       "OS/version " ++ os, "architecture " ++ arch], ?_, ?_, ?_, ?_⟩
  · unfold get_parsed_tag
    rw [hempty]
    rfl
  · exact ⟨"Could not find an LLVM release for " ++ "major LLVM version ",
      ", " ++ (("OS/version " ++ os) ++ ", " ++ ("architecture " ++ arch)),
      by simp only [pyJoin, String.append_assoc]⟩
  · exact ⟨"Could not find an LLVM release for " ++
      (("major LLVM version " ++ toString major) ++ ", ") ++ "OS/version ",
      ", " ++ ("architecture " ++ arch),
      by simp only [pyJoin, String.append_assoc]⟩
  · exact ⟨"Could not find an LLVM release for " ++
      (("major LLVM version " ++ toString major) ++ ", ") ++
      (("OS/version " ++ os) ++ ", ") ++ "architecture ", "",
      by simp only [pyJoin, String.append_assoc, String.append_empty]⟩

/-- Witness for C8: an empty catalog for LLVM 14 on centos7/x86_64. -/
theorem C8_no_matching_witness :
    ∃ msg,
      get_parsed_tag (fun _ _ => true) [] "centos7" "x86_64" 14 =
        (.error (.noMatchingRelease msg),
         [msg ++ ". Available packages:\n" ++ onePerLineStr []]) ∧
      (∃ pre post, msg = pre ++ toString (14 : Int) ++ post) ∧
      (∃ pre post, msg = pre ++ "centos7" ++ post) ∧
      (∃ pre post, msg = pre ++ "x86_64" ++ post) :=
  C8_no_matching (fun _ _ => true) [] "centos7" "x86_64" 14 (by decide)

/-! ## Parser lemmas -/

lemma pyInt_err_shape {s : String} {e : PyErr} (h : pyInt s = .error e) :
    e = .valueError s := by
  unfold pyInt at h
  split at h <;> split at h <;> simp_all

lemma pyGetIdx_err_shape {l : List String} {i : Nat} {e : PyErr}
    (h : pyGetIdx l i = .error e) : e = .indexError := by
  unfold pyGetIdx at h
  split at h <;> simp_all

lemma pyIdxInt_err_shape {l : List String} {i : Nat} {e : PyErr}
    (h : pyIdxInt l i = .error e) :
    e = .indexError ∨ ∃ s, e = .valueError s := by
  unfold pyIdxInt at h
  split at h
  · next e2 heq =>
    have he2 : e2 = e := by simpa using h
    exact Or.inl (he2 ▸ pyGetIdx_err_shape heq)
  · next s heq => exact Or.inr ⟨s, pyInt_err_shape h⟩

lemma ybSuffixVersion_err_shape {v : Option String} {e : PyErr}
    (h : ybSuffixVersion v = .error e) : ∃ s, e = .valueError s := by
  unfold ybSuffixVersion at h
  split at h
  · split at h
    · split at h
      · next e2 hpy =>
        have he2 : e2 = e := by simpa using h
        exact ⟨_, he2 ▸ pyInt_err_shape hpy⟩
      · simp at h
    · simp at h
  · simp at h

lemma checkOldDefault_err_shape {v : Option String} {d : String} {e : PyErr}
    (h : checkOldDefault v d = .error e) : e = .assertionError := by
  unfold checkOldDefault at h
  split at h
  · simp at h
  · split at h <;> simp_all

lemma finish_init_ok {r : RawFields} {old : Bool} {t : ParsedTag}
    (h : finish_init r old = .ok t) :
    t.tag = r.tag ∧ t.version = r.version ∧
    t.version_suffix = r.version_suffix ∧ t.timestamp = r.timestamp ∧
    t.sha1_prefix = r.sha1_prefix ∧
    t.is_old_tag_without_os_and_arch = old ∧
    pyIdxInt (pySplitDot r.version) 0 = .ok t.major_version ∧
    pyIdxInt (pySplitDot r.version) 1 = .ok t.minor_version ∧
    pyIdxInt (pySplitDot r.version) 2 = .ok t.patch_version ∧
    ybSuffixVersion r.version_suffix = .ok t.yb_suffix_version ∧
    (old = true →
      t.short_os_name_and_version
        = DEFAULT_SHORT_OS_NAME_AND_VERSION_FOR_OLD_BUILDS ∧
      t.architecture = DEFAULT_ARCHITECTURE_FOR_OLD_BUILDS ∧
      checkOldDefault r.short_os_name_and_version
        DEFAULT_SHORT_OS_NAME_AND_VERSION_FOR_OLD_BUILDS = .ok () ∧
      checkOldDefault r.architecture
        DEFAULT_ARCHITECTURE_FOR_OLD_BUILDS = .ok ()) ∧
    (old = false →
      r.short_os_name_and_version = some t.short_os_name_and_version ∧
      r.architecture = some t.architecture) := by
  unfold finish_init at h
  split at h
  · simp at h
  next major hmaj =>
  split at h
  · simp at h
  next minor hmin =>
  split at h
  · simp at h
  next patch hpat =>
  split at h
  · simp at h
  next yb hyb =>
  split at h
  next hold =>
    split at h
    · simp at h
    next u1 hchk1 =>
    split at h
    · simp at h
    next u2 hchk2 =>
    have ht : t =
        { tag := r.tag, version := r.version,
          version_suffix := r.version_suffix, timestamp := r.timestamp,
          sha1_prefix := r.sha1_prefix,
          short_os_name_and_version :=
            DEFAULT_SHORT_OS_NAME_AND_VERSION_FOR_OLD_BUILDS,
          architecture := DEFAULT_ARCHITECTURE_FOR_OLD_BUILDS,
          major_version := major, minor_version := minor,
          patch_version := patch, yb_suffix_version := yb,
          is_old_tag_without_os_and_arch := true } := by
      simpa using h.symm
    subst ht
    refine ⟨rfl, rfl, rfl, rfl, rfl, by simp [hold], hmaj, hmin, hpat, hyb,
      fun _ => ⟨rfl, rfl, ?_, ?_⟩, fun hfalse => ?_⟩
    · cases u1; exact hchk1
    · cases u2; exact hchk2
    · rw [hold] at hfalse; exact absurd hfalse (by simp)
  next hold =>
    split at h
    next os arch hos harch =>
      have ht : t =
          { tag := r.tag, version := r.version,
            version_suffix := r.version_suffix, timestamp := r.timestamp,
            sha1_prefix := r.sha1_prefix, short_os_name_and_version := os,
            architecture := arch, major_version := major,
            minor_version := minor, patch_version := patch,
            yb_suffix_version := yb,
            is_old_tag_without_os_and_arch := false } := by
        simpa using h.symm
      subst ht
      simp only [Bool.not_eq_true] at hold
      refine ⟨rfl, rfl, rfl, rfl, rfl, by simp [hold], hmaj, hmin, hpat, hyb,
        fun htrue => ?_, fun _ => ⟨hos, harch⟩⟩
      · rw [hold] at htrue; exact absurd htrue (by simp)
    next hne => simp at h

lemma finish_init_not_tagparse (r : RawFields) (old : Bool) {e : PyErr}
    (h : finish_init r old = .error e) :
    ∀ msg, e ≠ .tagParsingError msg := by
  intro msg
  unfold finish_init at h
  split at h
  · next e1 heq =>
    have he : e1 = e := by simpa using h
    subst he
    rcases pyIdxInt_err_shape heq with h1 | ⟨s, h1⟩ <;> simp [h1]
  next major hmaj =>
  split at h
  · next e1 heq =>
    have he : e1 = e := by simpa using h
    subst he
    rcases pyIdxInt_err_shape heq with h1 | ⟨s, h1⟩ <;> simp [h1]
  next minor hmin =>
  split at h
  · next e1 heq =>
    have he : e1 = e := by simpa using h
    subst he
    rcases pyIdxInt_err_shape heq with h1 | ⟨s, h1⟩ <;> simp [h1]
  next patch hpat =>
  split at h
  · next e1 heq =>
    have he : e1 = e := by simpa using h
    subst he
    obtain ⟨s, h1⟩ := ybSuffixVersion_err_shape heq
    simp [h1]
  next yb hyb =>
  split at h
  next hold =>
    split at h
    · next e1 heq =>
      have he : e1 = e := by simpa using h
      subst he
      simp [checkOldDefault_err_shape heq]
    next u1 hchk1 =>
    split at h
    · next e1 heq =>
      have he : e1 = e := by simpa using h
      subst he
      simp [checkOldDefault_err_shape heq]
    next u2 hchk2 => simp at h
  next hold =>
    split at h
    next os arch hos harch => simp at h
    next hne =>
      have he : PyErr.assertionError = e := by simpa using h
      subst he
      simp

lemma matchCurrent_some {osNames : List String} {s : String} {r : RawFields}
    (h : matchCurrent osNames s = some r) :
    r.tag = s ∧ (∃ os, r.short_os_name_and_version = some os) ∧
    ∃ arch, r.architecture = some arch := by
  unfold matchCurrent at h
  obtain ⟨⟨v, suf, ts, sha, os, arch⟩, hcore, hr⟩ := Option.map_eq_some'.mp h
  subst hr
  exact ⟨rfl, ⟨os, rfl⟩, ⟨arch, rfl⟩⟩

lemma matchLegacy_some {s : String} {r : RawFields}
    (h : matchLegacy s = some r) :
    r.tag = s ∧ r.short_os_name_and_version = none ∧ r.architecture = none := by
  unfold matchLegacy at h
  obtain ⟨⟨v, suf, ts, sha, u⟩, hcore, hr⟩ := Option.map_eq_some'.mp h
  subst hr
  exact ⟨rfl, rfl, rfl⟩

lemma matchTag_none_iff {osNames : List String} {s : String} :
    matchTag osNames s = none ↔
      matchCurrent osNames s = none ∧ matchLegacy s = none := by
  unfold matchTag
  cases hc : matchCurrent osNames s with
  | some r => simp
  | none =>
    cases hl : matchLegacy s with
    | some r => simp
    | none => simp

lemma matchTag_tag {osNames : List String} {s : String} {r : RawFields}
    {old : Bool} (h : matchTag osNames s = some (r, old)) : r.tag = s := by
  unfold matchTag at h
  cases hc : matchCurrent osNames s with
  | some r2 =>
    rw [hc] at h
    simp only [Option.some.injEq, Prod.mk.injEq] at h
    exact h.1 ▸ (matchCurrent_some hc).1
  | none =>
    rw [hc] at h
    cases hl : matchLegacy s with
    | some r2 =>
      rw [hl] at h
      simp only [Option.some.injEq, Prod.mk.injEq] at h
      exact h.1 ▸ (matchLegacy_some hl).1
    | none => rw [hl] at h; simp at h

/-! ## C4: when parsing fails with `TagParsingError` -/

/-- C4, amended.  `from_tag` fails with `TagParsingError` exactly when the
anchored current-format pattern does not match the whole string and the
legacy pattern does not match any prefix of it: the legacy regular expression
carries no `$`, so under `re.match` a string whose proper prefix fits the
legacy grammar is accepted (the original claim said both grammars were
anchored).  When either pattern matches, any failure of `finish_init` is
never a `TagParsingError`.  `parse("not-a-valid-tag")` fails with
`TagParsingError`. -/
theorem C4_tagparse_amended (osNames : List String) (s : String) :
    ((∃ msg, ParsedTag.from_tag osNames s = .error (.tagParsingError msg)) ↔
      (matchCurrent osNames s = none ∧ matchLegacy s = none)) ∧
    (∃ msg, ParsedTag.from_tag osNames "not-a-valid-tag"
      = .error (.tagParsingError msg)) := by
  have main : ∀ u : String,
      (∃ msg, ParsedTag.from_tag osNames u = .error (.tagParsingError msg)) ↔
        (matchCurrent osNames u = none ∧ matchLegacy u = none) := by
    intro u
    constructor
    · rintro ⟨msg, hmsg⟩
      by_contra hcon
      rw [← @matchTag_none_iff osNames u] at hcon
      cases hmt : matchTag osNames u with
      | none => exact hcon hmt
      | some p =>
        obtain ⟨r, old⟩ := p
        unfold ParsedTag.from_tag at hmsg
        rw [hmt] at hmsg
        exact absurd rfl (finish_init_not_tagparse r old hmsg msg)
    · intro hnone
      rw [← @matchTag_none_iff osNames u] at hnone
      unfold ParsedTag.from_tag
      rw [hnone]
      exact ⟨_, rfl⟩
  refine ⟨main s, ?_⟩
  rw [main "not-a-valid-tag"]
  constructor
  · rfl
  · decide

/-- Counterexample to C4 as stated: `v11.1.0-1633099975-130bd22e!` matches
neither the anchored current grammar nor the anchored legacy grammar (the
trailing `!` fits no production), yet `from_tag` accepts it, because the
legacy pattern is matched as a prefix. -/
theorem C4_counterexample :
    matchCurrent specOsNames "v11.1.0-1633099975-130bd22e!" = none ∧
    matchLegacyAnchored "v11.1.0-1633099975-130bd22e!" = none ∧
    ParsedTag.from_tag specOsNames "v11.1.0-1633099975-130bd22e!"
      = .ok { tag := "v11.1.0-1633099975-130bd22e!",
              version := "11.1.0", version_suffix := none,
              timestamp := "1633099975", sha1_prefix := "130bd22e",
              short_os_name_and_version := "centos7",
              architecture := "x86_64", major_version := 11,
              minor_version := 1, patch_version := 0,
              yb_suffix_version := none,
              is_old_tag_without_os_and_arch := true } := by
  refine ⟨by decide, by decide, by decide⟩

/-! ## C5: short version components -/

/-- C5.  A raw identifier accepted by the legacy grammar whose version has
only two dot-separated components: `finish_init` raises an uncaught
`IndexError` from `version_components[2]`, not the `TagParsingError` the
spec prescribes. -/
theorem C5_short_version_indexerror :
    ParsedTag.from_tag specOsNames "v14.0-1651732108-1f914006"
      = .error .indexError := by decide

/-! ## C6: legacy defaults -/

/-- C6.  Whenever the current-format pattern fails and `from_tag`
nevertheless succeeds (the legacy pattern matched), the parsed record carries
the fixed legacy defaults: OS/version `centos7`, architecture `x86_64`, and
`is_old_tag_without_os_and_arch = true`. -/
theorem C6_legacy_defaults (osNames : List String) (s : String)
    (t : ParsedTag)
    (hcur : matchCurrent osNames s = none)
    (hok : ParsedTag.from_tag osNames s = .ok t) :
    t.short_os_name_and_version = "centos7" ∧
    t.architecture = "x86_64" ∧
    t.is_old_tag_without_os_and_arch = true := by
  unfold ParsedTag.from_tag at hok
  unfold matchTag at hok
  rw [hcur] at hok
  cases hl : matchLegacy s with
  | none => rw [hl] at hok; simp at hok
  | some r =>
    rw [hl] at hok
    have hfin : finish_init r true = .ok t := hok
    have hspec := finish_init_ok hfin
    obtain ⟨-, -, -, -, -, h6, -, -, -, -, hOld, -⟩ := hspec
    obtain ⟨ho, ha, -, -⟩ := hOld rfl
    exact ⟨ho, ha, h6⟩

/-- Witness for C6: the spec's concrete legacy identifier
`v11.1.0-1633099975-130bd22e`. -/
theorem C6_legacy_defaults_witness :
    matchCurrent specOsNames "v11.1.0-1633099975-130bd22e" = none ∧
    ParsedTag.from_tag specOsNames "v11.1.0-1633099975-130bd22e"
      = .ok { tag := "v11.1.0-1633099975-130bd22e",
              version := "11.1.0", version_suffix := none,
              timestamp := "1633099975", sha1_prefix := "130bd22e",
              short_os_name_and_version := "centos7",
              architecture := "x86_64", major_version := 11,
              minor_version := 1, patch_version := 0,
              yb_suffix_version := none,
              is_old_tag_without_os_and_arch := true } ∧
    ({ tag := "v11.1.0-1633099975-130bd22e",
       version := "11.1.0", version_suffix := none,
       timestamp := "1633099975", sha1_prefix := "130bd22e",
       short_os_name_and_version := "centos7",
       architecture := "x86_64", major_version := 11,
       minor_version := 1, patch_version := 0,
       yb_suffix_version := none,
       is_old_tag_without_os_and_arch := true } : ParsedTag).short_os_name_and_version = "centos7" ∧
    ({ tag := "v11.1.0-1633099975-130bd22e",
       version := "11.1.0", version_suffix := none,
       timestamp := "1633099975", sha1_prefix := "130bd22e",
       short_os_name_and_version := "centos7",
       architecture := "x86_64", major_version := 11,
       minor_version := 1, patch_version := 0,
       yb_suffix_version := none,
       is_old_tag_without_os_and_arch := true } : ParsedTag).is_old_tag_without_os_and_arch = true :=
  ⟨by decide, by decide,
   ((C6_legacy_defaults specOsNames "v11.1.0-1633099975-130bd22e" _
      (by decide) (by decide)).1),
   ((C6_legacy_defaults specOsNames "v11.1.0-1633099975-130bd22e" _
      (by decide) (by decide)).2.2)⟩

/-! ## C7: round-trip -/

lemma from_dict_as_dict (t : ParsedTag) :
    ParsedTag.from_dict (ParsedTag.as_dict t)
      = finish_init (rawOf t) t.is_old_tag_without_os_and_arch := by
  obtain ⟨tag, version, suffix, ts, sha, os, arch, ma, mi, pa, yb, iold⟩ := t
  cases suffix <;> rfl

lemma finish_init_again {r : RawFields} {old : Bool} {t : ParsedTag}
    (h : finish_init r old = .ok t) :
    finish_init (rawOf t) old = .ok t := by
  obtain ⟨htag, hver, hsuf, hts, hsha, hold, hmaj, hmin, hpat, hyb, hOld, hNew⟩ :=
    finish_init_ok h
  have e1 : pyIdxInt (pySplitDot (rawOf t).version) 0 = .ok t.major_version := by
    show pyIdxInt (pySplitDot t.version) 0 = .ok t.major_version
    rw [hver]; exact hmaj
  have e2 : pyIdxInt (pySplitDot (rawOf t).version) 1 = .ok t.minor_version := by
    show pyIdxInt (pySplitDot t.version) 1 = .ok t.minor_version
    rw [hver]; exact hmin
  have e3 : pyIdxInt (pySplitDot (rawOf t).version) 2 = .ok t.patch_version := by
    show pyIdxInt (pySplitDot t.version) 2 = .ok t.patch_version
    rw [hver]; exact hpat
  have e4 : ybSuffixVersion (rawOf t).version_suffix
      = .ok t.yb_suffix_version := by
    show ybSuffixVersion t.version_suffix = .ok t.yb_suffix_version
    rw [hsuf]; exact hyb
  unfold finish_init
  simp only [e1, e2, e3, e4]
  cases old with
  | true =>
    obtain ⟨ho, ha, -, -⟩ := hOld rfl
    have hc1 : checkOldDefault (rawOf t).short_os_name_and_version
        DEFAULT_SHORT_OS_NAME_AND_VERSION_FOR_OLD_BUILDS = .ok () := by
      show checkOldDefault (some t.short_os_name_and_version) _ = _
      simp [checkOldDefault, ho]
    have hc2 : checkOldDefault (rawOf t).architecture
        DEFAULT_ARCHITECTURE_FOR_OLD_BUILDS = .ok () := by
      show checkOldDefault (some t.architecture) _ = _
      simp [checkOldDefault, ha]
    simp only [if_true, hc1, hc2]
    rw [← ho, ← ha, ← hold]
    rfl
  | false =>
    rw [if_neg (by simp : ¬(false = true))]
    rw [show (rawOf t).short_os_name_and_version
        = some t.short_os_name_and_version from rfl]
    rw [show (rawOf t).architecture = some t.architecture from rfl]
    rw [show (false : Bool) = t.is_old_tag_without_os_and_arch from hold.symm]
    rfl

/-- C7.  For every raw identifier accepted by either grammar, the parsed
record retains the raw tag (`parse(s).tag == s`), and serialising it with
`as_dict` and re-parsing with `from_dict` reproduces the record
field-for-field. -/
theorem C7_roundtrip (osNames : List String) (s : String) (t : ParsedTag)
    (h : ParsedTag.from_tag osNames s = .ok t) :
    t.tag = s ∧ ParsedTag.from_dict (ParsedTag.as_dict t) = .ok t := by
  unfold ParsedTag.from_tag at h
  cases hmt : matchTag osNames s with
  | none => rw [hmt] at h; simp at h
  | some p =>
    obtain ⟨r, old⟩ := p
    rw [hmt] at h
    have htag : t.tag = s := by
      rw [(finish_init_ok h).1, matchTag_tag hmt]
    have hold : t.is_old_tag_without_os_and_arch = old :=
      (finish_init_ok h).2.2.2.2.2.1
    refine ⟨htag, ?_⟩
    rw [from_dict_as_dict, hold]
    exact finish_init_again h

/-- Witness for C7: the current-format identifier
`v14.0.3-1651732108-1f914006-ubuntu22.04-x86_64`. -/
theorem C7_roundtrip_witness :
    ({ tag := "v14.0.3-1651732108-1f914006-ubuntu22.04-x86_64",
       version := "14.0.3", version_suffix := none,
       timestamp := "1651732108", sha1_prefix := "1f914006",
       short_os_name_and_version := "ubuntu22.04",
       architecture := "x86_64", major_version := 14,
       minor_version := 0, patch_version := 3,
       yb_suffix_version := none,
       is_old_tag_without_os_and_arch := false } : ParsedTag).tag
      = "v14.0.3-1651732108-1f914006-ubuntu22.04-x86_64" ∧
    ParsedTag.from_dict (ParsedTag.as_dict
      { tag := "v14.0.3-1651732108-1f914006-ubuntu22.04-x86_64",
        version := "14.0.3", version_suffix := none,
        timestamp := "1651732108", sha1_prefix := "1f914006",
        short_os_name_and_version := "ubuntu22.04",
        architecture := "x86_64", major_version := 14,
        minor_version := 0, patch_version := 3,
        yb_suffix_version := none,
        is_old_tag_without_os_and_arch := false })
      = .ok { tag := "v14.0.3-1651732108-1f914006-ubuntu22.04-x86_64",
              version := "14.0.3", version_suffix := none,
              timestamp := "1651732108", sha1_prefix := "1f914006",
              short_os_name_and_version := "ubuntu22.04",
              architecture := "x86_64", major_version := 14,
              minor_version := 0, patch_version := 3,
              yb_suffix_version := none,
              is_old_tag_without_os_and_arch := false } :=
  C7_roundtrip specOsNames "v14.0.3-1651732108-1f914006-ubuntu22.04-x86_64"
    _ (by decide)

/-! ## C10: the build-counter suffix -/

/-- C10, amended.  For a raw identifier matched by either pattern whose
captured suffix starts with `yb-`, and whose other fields pass `finish_init`
(witnessed by the same record with the suffix removed), parsing fails — with
a `ValueError`, never a `TagParsingError` — exactly when the suffix remainder
`suffix[3:]` is not accepted by Python `int`, i.e. is not an optional minus
sign followed by one or more digits (the original claim required a non-empty
unsigned digit string, but `int` also accepts signed remainders such as
`"-5"`); when the remainder is accepted, parsing succeeds and stores its
value as the build counter. -/
theorem C10_yb_suffix_amended (osNames : List String) (s : String)
    (r : RawFields) (old : Bool) (vs : String) (t' : ParsedTag)
    (hmt : matchTag osNames s = some (r, old))
    (hsuf : r.version_suffix = some vs)
    (hyb : pyStartsWith vs "yb-" = true)
    (hrest : finish_init { r with version_suffix := none } old = .ok t') :
    ((∃ msg, ParsedTag.from_tag osNames s = .error (.valueError msg)) ↔
      pyIntOk (pyDrop vs 3) = false) ∧
    (∀ msg, ParsedTag.from_tag osNames s ≠ .error (.tagParsingError msg)) ∧
    (∀ v, pyInt (pyDrop vs 3) = .ok v →
      ∃ t, ParsedTag.from_tag osNames s = .ok t ∧
        t.yb_suffix_version = some v) := by
  have hfin : ParsedTag.from_tag osNames s = finish_init r old := by
    unfold ParsedTag.from_tag
    rw [hmt]
  have hmaj : pyIdxInt (pySplitDot r.version) 0 = .ok t'.major_version :=
    (finish_init_ok hrest).2.2.2.2.2.2.1
  have hmin : pyIdxInt (pySplitDot r.version) 1 = .ok t'.minor_version :=
    (finish_init_ok hrest).2.2.2.2.2.2.2.1
  have hpat : pyIdxInt (pySplitDot r.version) 2 = .ok t'.patch_version :=
    (finish_init_ok hrest).2.2.2.2.2.2.2.2.1
  have hOldChk : old = true →
      checkOldDefault r.short_os_name_and_version
        DEFAULT_SHORT_OS_NAME_AND_VERSION_FOR_OLD_BUILDS = .ok () ∧
      checkOldDefault r.architecture
        DEFAULT_ARCHITECTURE_FOR_OLD_BUILDS = .ok () := by
    intro ho
    have := ((finish_init_ok hrest).2.2.2.2.2.2.2.2.2.2.1) ho
    exact ⟨this.2.2.1, this.2.2.2⟩
  have hNewChk : old = false →
      r.short_os_name_and_version = some t'.short_os_name_and_version ∧
      r.architecture = some t'.architecture :=
    (finish_init_ok hrest).2.2.2.2.2.2.2.2.2.2.2
  have hybstep : ybSuffixVersion r.version_suffix
      = (match pyInt (pyDrop vs 3) with
         | .error e => .error e
         | .ok v => .ok (some v)) := by
    rw [hsuf]
    unfold ybSuffixVersion
    simp [hyb]
  cases hpy : pyInt (pyDrop vs 3) with
  | error e =>
    obtain ⟨ms, hms⟩ : ∃ ms, e = PyErr.valueError ms := ⟨_, pyInt_err_shape hpy⟩
    have hfail : finish_init r old = .error e := by
      unfold finish_init
      simp only [hmaj, hmin, hpat, hybstep, hpy]
    refine ⟨?_, ?_, ?_⟩
    · constructor
      · intro _
        unfold pyIntOk exceptIsOk
        rw [hpy]
      · intro _
        exact ⟨ms, by rw [hfin, hfail, hms]⟩
    · intro msg hcon
      rw [hfin, hfail, hms] at hcon
      simp at hcon
    · intro v hv
      simp at hv
  | ok v =>
    have hsucc : ∃ t, finish_init r old = .ok t ∧
        t.yb_suffix_version = some v := by
      unfold finish_init
      simp only [hmaj, hmin, hpat, hybstep, hpy]
      cases old with
      | true =>
        obtain ⟨hc1, hc2⟩ := hOldChk rfl
        simp only [if_true, hc1, hc2]
        exact ⟨_, rfl, rfl⟩
      | false =>
        obtain ⟨hos, harch⟩ := hNewChk rfl
        rw [if_neg (by simp : ¬(false = true)), hos, harch]
        exact ⟨_, rfl, rfl⟩
    obtain ⟨t, hok, htyb⟩ := hsucc
    refine ⟨?_, ?_, ?_⟩
    · constructor
      · rintro ⟨msg, hcon⟩
        rw [hfin, hok] at hcon
        simp at hcon
      · intro hcon
        unfold pyIntOk exceptIsOk at hcon
        rw [hpy] at hcon
        simp at hcon
    · intro msg hcon
      rw [hfin, hok] at hcon
      simp at hcon
    · intro v2 hv2
      have hveq : v = v2 := by simpa using hv2
      exact ⟨t, by rw [hfin, hok], by rw [htyb, hveq]⟩

/-- Witness for C10 (amended): the accepted identifier
`v1.2.3-yb-beta-1648363631-abcdef` carries the suffix `yb-beta`; its
remainder `beta` is rejected by `int`, so parsing fails with a `ValueError`
(not a `TagParsingError`). -/
theorem C10_yb_suffix_amended_witness :
    ∃ msg, ParsedTag.from_tag specOsNames "v1.2.3-yb-beta-1648363631-abcdef"
      = .error (.valueError msg) :=
  (C10_yb_suffix_amended specOsNames "v1.2.3-yb-beta-1648363631-abcdef"
    c10Raw true "yb-beta" c10Rest
    (by decide) (by decide) (by decide) (by decide)).1.mpr (by decide)

/-- Counterexample to C10 as stated: the accepted identifier
`v1.2.3-yb--5-1648363631-abcdef` has captured suffix `yb--5`, whose remainder
`-5` is not a non-empty decimal numeral, yet the unguarded `int` conversion
succeeds (Python `int("-5")` is `-5`) and parsing returns a record with build
counter `-5` instead of failing. -/
theorem C10_counterexample :
    pyStartsWith "yb--5" "yb-" = true ∧
    isDecimalNumeral (pyDrop "yb--5" 3) = false ∧
    ParsedTag.from_tag specOsNames "v1.2.3-yb--5-1648363631-abcdef"
      = .ok { tag := "v1.2.3-yb--5-1648363631-abcdef", version := "1.2.3",
              version_suffix := some "yb--5", timestamp := "1648363631",
              sha1_prefix := "abcdef",
              short_os_name_and_version := "centos7",
              architecture := "x86_64", major_version := 1,
              minor_version := 2, patch_version := 3,
              yb_suffix_version := some (-5),
              is_old_tag_without_os_and_arch := true } := by
  refine ⟨by decide, by decide, by decide⟩
